import Mathlib

/-!
# Verification of the YadrenoVPN payment reconciliation core

A shallow embedding of the order/payment lifecycle engine of the
YadrenoVPN Telegram bot: the Base62/HMAC-SHA256 signature scheme of the
crypto-processor callback (`bot/services/billing.py`), the order store
operations (`database/requests.py`), and the reconciliation entry points
(`process_payment_order`, `process_crypto_payment`, the Stars receipt
handler).  Machine words are `Nat` reduced mod `2^32`; the SQLite store
is a record of lists; time is an integer timestamp in seconds.
-/

namespace Yadreno

/-! ## SHA-256 (FIPS 180-4), as computed by Python's `hashlib.sha256` -/

/-- 32-bit mask. -/
def MASK32 : Nat := 4294967295

/-- Addition mod 2^32. -/
def add32 (x y : Nat) : Nat := (x + y) &&& MASK32

/-- Right rotation of a 32-bit word. -/
def rotr32 (x k : Nat) : Nat := ((x >>> k) ||| (x <<< (32 - k))) &&& MASK32

/-- Bitwise complement of a 32-bit word. -/
def not32 (x : Nat) : Nat := x ^^^ MASK32

/-- SHA-256 big sigma 0. -/
def bsig0 (x : Nat) : Nat := rotr32 x 2 ^^^ rotr32 x 13 ^^^ rotr32 x 22

/-- SHA-256 big sigma 1. -/
def bsig1 (x : Nat) : Nat := rotr32 x 6 ^^^ rotr32 x 11 ^^^ rotr32 x 25

/-- SHA-256 small sigma 0. -/
def ssig0 (x : Nat) : Nat := rotr32 x 7 ^^^ rotr32 x 18 ^^^ (x >>> 3)

/-- SHA-256 small sigma 1. -/
def ssig1 (x : Nat) : Nat := rotr32 x 17 ^^^ rotr32 x 19 ^^^ (x >>> 10)

/-- SHA-256 choice function. -/
def chFn (e f g : Nat) : Nat := (e &&& f) ^^^ (not32 e &&& g)

/-- SHA-256 majority function. -/
def majFn (a b c : Nat) : Nat := (a &&& b) ^^^ (a &&& c) ^^^ (b &&& c)

/-- The 64 SHA-256 round constants (FIPS 180-4 section 4.2.2, the
fractional parts of the cube roots of the first 64 primes, written in
decimal). -/
def shaK : List Nat :=
  [1116352408, 1899447441, 3049323471, 3921009573, 961987163,
   1508970993, 2453635748, 2870763221, 3624381080, 310598401,
   607225278, 1426881987, 1925078388, 2162078206, 2614888103,
   3248222580, 3835390401, 4022224774, 264347078, 604807628,
   770255983, 1249150122, 1555081692, 1996064986, 2554220882,
   2821834349, 2952996808, 3210313671, 3336571891, 3584528711,
   113926993, 338241895, 666307205, 773529912, 1294757372,
   1396182291, 1695183700, 1986661051, 2177026350, 2456956037,
   2730485921, 2820302411, 3259730800, 3345764771, 3516065817,
   3600352804, 4094571909, 275423344, 430227734, 506948616,
   659060556, 883997877, 958139571, 1322822218, 1537002063,
   1747873779, 1955562222, 2024104815, 2227730452, 2361852424,
   2428436474, 2756734187, 3204031479, 3329325298]

/-- The SHA-256 initial hash value (FIPS 180-4 section 5.3.3, in
decimal). -/
def shaH0 : List Nat :=
  [1779033703, 3144134277, 1013904242, 2773480762, 1359893119,
   2600822924, 528734635, 1541459225]

/-- Group a byte list into big-endian 32-bit words (a trailing group of
fewer than 4 bytes is dropped; padding guarantees it never occurs). -/
def bytesToWords : List Nat → List Nat
  | b0 :: b1 :: b2 :: b3 :: rest => (((b0 * 256 + b1) * 256 + b2) * 256 + b3) :: bytesToWords rest
  | _ => []

/-- Group a word list into 16-word blocks (a trailing short group is
dropped; padding guarantees it never occurs). -/
def wordsToBlocks : List Nat → List (List Nat)
  | w0 :: w1 :: w2 :: w3 :: w4 :: w5 :: w6 :: w7 ::
    w8 :: w9 :: w10 :: w11 :: w12 :: w13 :: w14 :: w15 :: rest =>
      [w0, w1, w2, w3, w4, w5, w6, w7, w8, w9, w10, w11, w12, w13, w14, w15] :: wordsToBlocks rest
  | _ => []

/-- Big-endian bytes of `n`, `k` bytes wide. -/
def natToBytesBE (k n : Nat) : List Nat :=
  match k with
  | 0 => []
  | k + 1 => natToBytesBE k (n / 256) ++ [n % 256]

/-- SHA-256 message padding: append `0x80`, zeros, and the 64-bit
big-endian bit length so the total is a multiple of 64 bytes. -/
def shaPad (msg : List Nat) : List Nat :=
  let r := (msg.length + 1) % 64
  let zeros := if r ≤ 56 then 56 - r else 120 - r
  msg ++ [0x80] ++ List.replicate zeros 0 ++ natToBytesBE 8 (msg.length * 8)

/-- Extend a 16-word block to the 64-word message schedule; `fuel` counts
the remaining words to append (48 at the top call). -/
def shaExtend : Nat → Array Nat → Array Nat
  | 0, w => w
  | fuel + 1, w =>
      let i := w.size
      let x := add32 (add32 (ssig1 (w.getD (i - 2) 0)) (w.getD (i - 7) 0))
                     (add32 (ssig0 (w.getD (i - 15) 0)) (w.getD (i - 16) 0))
      shaExtend fuel (w.push x)

/-- One SHA-256 round: update the eight working variables. -/
def shaRound (st : List Nat) (kw : Nat × Nat) : List Nat :=
  match st with
  | [a, b, c, d, e, f, g, h] =>
      let t1 := add32 (add32 (add32 h (bsig1 e)) (add32 (chFn e f g) kw.1)) kw.2
      let t2 := add32 (bsig0 a) (majFn a b c)
      [add32 t1 t2, a, b, c, add32 d t1, e, f, g]
  | st => st

/-- Compress one 16-word block into the running hash. -/
def shaCompress (h : List Nat) (block : List Nat) : List Nat :=
  let w := (shaExtend 48 (Array.mk block)).toList
  let st := (shaK.zip w).foldl shaRound h
  (h.zip st).map (fun p => add32 p.1 p.2)

/-- SHA-256 of a byte list, returned as the 32 digest bytes. -/
def sha256 (msg : List Nat) : List Nat :=
  let blocks := wordsToBlocks (bytesToWords (shaPad msg))
  let h := blocks.foldl shaCompress shaH0
  h.flatMap (natToBytesBE 4)

/-! ## HMAC-SHA256, as computed by Python's `hmac.new(key, msg, sha256)` -/

/-- HMAC-SHA256 (RFC 2104) over byte lists, block size 64. -/
def hmacSha256 (key msg : List Nat) : List Nat :=
  let k0 := if key.length > 64 then sha256 key else key
  let k := k0 ++ List.replicate (64 - k0.length) 0
  let ipad := k.map (fun b => b ^^^ 0x36)
  let opad := k.map (fun b => b ^^^ 0x5c)
  sha256 (opad ++ sha256 (ipad ++ msg))

/-- UTF-8 encoding of one code point (mirrors `str.encode('utf-8')`). -/
def charUtf8 (c : Char) : List Nat :=
  let n := c.toNat
  if n < 0x80 then [n]
  else if n < 0x800 then [0xc0 ||| (n >>> 6), 0x80 ||| (n &&& 0x3f)]
  else if n < 0x10000 then
    [0xe0 ||| (n >>> 12), 0x80 ||| ((n >>> 6) &&& 0x3f), 0x80 ||| (n &&& 0x3f)]
  else
    [0xf0 ||| (n >>> 18), 0x80 ||| ((n >>> 12) &&& 0x3f),
     0x80 ||| ((n >>> 6) &&& 0x3f), 0x80 ||| (n &&& 0x3f)]

/-- UTF-8 bytes of a string (mirrors `s.encode('utf-8')`). -/
def strBytes (s : String) : List Nat := s.data.flatMap charUtf8

/-! ## Base62 encodings (`billing.encode_base62`, `requests._int_to_base62`) -/

/-- The shared Base62 alphabet: digits, then uppercase, then lowercase. -/
def ALPHABET : List Char :=
  "0123456789ABCDEFGHIJKLMNOPQRSTUVWXYZabcdefghijklmnopqrstuvwxyz".data

/-- The digits of `n` base 62, least significant first, mirroring the
`while num > 0` loop; `fuel ≥ n` suffices for the loop to run out. -/
def base62Aux : Nat → Nat → List Char
  | 0, _ => []
  | fuel + 1, n => if n == 0 then [] else ALPHABET.getD (n % 62) '0' :: base62Aux fuel (n / 62)

/-- Big-endian integer value of a byte list (`int.from_bytes(data, 'big')`). -/
def beNat (data : List Nat) : Nat := data.foldl (fun acc b => acc * 256 + b) 0

/-- `billing.encode_base62`: empty input gives `""`, value zero gives
`"0"`, otherwise the base-62 digits most significant first. -/
def encode_base62 (data : List Nat) : String :=
  if data.isEmpty then ""
  else
    let num := beNat data
    if num == 0 then "0" else String.mk (base62Aux num num).reverse

/-- `requests._int_to_base62`: zero gives `"0"`, otherwise base-62 digits
most significant first. -/
def int_to_base62 (num : Nat) : String :=
  if num == 0 then "0" else String.mk (base62Aux num num).reverse

/-! ## Signature verification (`billing.verify_crypto_signature`) -/

/-- The signature the crypto processor is expected to send:
Base62 of the first 11 bytes of HMAC-SHA256(secret, data_part). -/
def crypto_signature (data_part secret_key : String) : String :=
  encode_base62 ((hmacSha256 (strBytes secret_key) (strBytes data_part)).take 11)

/-- `billing.verify_crypto_signature`: recompute the signature from
`data_part` and the secret and compare (`hmac.compare_digest` is a
constant-time string equality). -/
def verify_crypto_signature (data_part received_signature secret_key : String) : Bool :=
  crypto_signature data_part secret_key == received_signature

/-! ## Python `int()` on strings -/

/-- Digit scanner for a Python int literal after the sign: `acc` is the
value read so far, `sawDigit` whether the previous character was a
digit.  At least one digit is required; an underscore is legal only
between two digits. -/
def pyDigitsAux (acc : Nat) (sawDigit : Bool) : List Char → Option Nat
  | [] => if sawDigit then some acc else none
  | c :: rest =>
      if c.isDigit then pyDigitsAux (acc * 10 + (c.toNat - 48)) true rest
      else if c == '_' then
        if sawDigit then
          match rest with
          | c2 :: _ => if c2.isDigit then pyDigitsAux acc false rest else none
          | [] => none
        else none
      else none

/-- Digits of a Python int literal after the sign. -/
def pyDigits (cs : List Char) : Option Nat := pyDigitsAux 0 false cs

/-- Python `int(s)`: optional surrounding ASCII whitespace, optional
sign, decimal digits with underscores allowed between digits. -/
def pyInt (s : String) : Option Int :=
  let t := s.data.dropWhile (fun c => c == ' ' || c == '\t' || c == '\n' || c == '\r')
  let t := (t.reverse.dropWhile (fun c => c == ' ' || c == '\t' || c == '\n' || c == '\r')).reverse
  match t with
  | '-' :: rest => (pyDigits rest).map (fun n => -(Int.ofNat n))
  | '+' :: rest => (pyDigits rest).map (fun n => Int.ofNat n)
  | rest => (pyDigits rest).map (fun n => Int.ofNat n)

/-! ## Python `str.split` -/

/-- Accumulating worker for `str.split(sep)`: `cur` holds the current
segment reversed. -/
def pySplitAux (sep : Char) : List Char → List Char → List (List Char)
  | cur, [] => [cur.reverse]
  | cur, c :: rest =>
      if c == sep then cur.reverse :: pySplitAux sep [] rest
      else pySplitAux sep (c :: cur) rest

/-- Python `s.split(sep)` for a one-character separator: splits on every
occurrence, keeping empty segments (`"".split('-') == ['']`). -/
def pySplit (sep : Char) (s : String) : List String :=
  (pySplitAux sep [] s.data).map String.mk

/-- Python `s.startswith(pre)`, as a prefix test on the character
lists. -/
def pyStartsWith (s pre : String) : Bool := pre.data.isPrefixOf s.data

/-! ## Callback parsing (`billing.parse_crypto_callback`) -/

/-- The dictionary returned by `parse_crypto_callback`. -/
structure ParsedCallback where
  head_seg : String
  order_id : String
  item_id : String
  tariff : String
  promo : String
  price : Int
  signature : String
  data_part : String
  deriving DecidableEq, Repr

/-- `billing.parse_crypto_callback`: reject unless the token starts with
`"bill"` and splits on `'-'` into at least 7 segments; the last segment
is the signature, `data_part` is the token with the final segment
removed, the price segment is `0` for the `'_'` placeholder and
otherwise must parse as a Python int. -/
def parse_crypto_callback (start_param : String) : Option ParsedCallback :=
  if start_param == "" || !pyStartsWith start_param "bill" then none
  else
    let parts := pySplit '-' start_param
    if parts.length < 7 then none
    else
      let priceSeg := parts.getD 5 ""
      let price? : Option Int := if priceSeg != "_" then pyInt priceSeg else some 0
      match price? with
      | none => none
      | some price =>
          some {
            head_seg := parts.getD 0 ""
            order_id := parts.getD 1 ""
            item_id := parts.getD 2 ""
            tariff := parts.getD 3 ""
            promo := parts.getD 4 ""
            price := price
            signature := parts.getLastD ""
            data_part := String.intercalate "-" parts.dropLast }

/-! ## The data store (`database/requests.py` over the SQLite schema)

Rows are kept in insertion order; an SQL `UPDATE ... WHERE` rewrites
every matching row and reports the number of rows changed; `fetchone`
returns the first matching row.  `now` stands for `datetime('now')` as
an integer timestamp in seconds, so `'+N days'` is `N * 86400`. -/

/-- Order status column (`'pending' | 'paid' | 'expired'`). -/
inductive OrderStatus where
  | pending
  | paid
  | expired
  deriving DecidableEq, Repr

/-- A row of the `payments` table. -/
structure Payment where
  id : Nat
  user_id : Nat
  tariff_id : Option Nat
  order_id : String
  payment_type : Option String
  vpn_key_id : Option Nat
  amount_cents : Int
  amount_stars : Int
  period_days : Option Int
  status : OrderStatus
  paid_at : Option Int
  deriving DecidableEq, Repr

/-- A row of the `tariffs` table. -/
structure Tariff where
  id : Nat
  name : String
  duration_days : Int
  price_cents : Int
  price_stars : Int
  external_id : Option Int
  is_active : Bool
  deriving DecidableEq, Repr

/-- A row of the `vpn_keys` table (the columns this core touches). -/
structure VpnKey where
  id : Nat
  user_id : Nat
  tariff_id : Option Nat
  server_id : Option Nat
  expires_at : Int
  deriving DecidableEq, Repr

/-- The persistent state: the four tables the reconciliation core reads
or writes, the AUTOINCREMENT counters, and the current wall clock. -/
structure DB where
  payments : List Payment
  tariffs : List Tariff
  vpn_keys : List VpnKey
  settings : List (String × String)
  next_payment_id : Nat
  next_key_id : Nat
  now : Int
  deriving DecidableEq, Repr

/-- `requests.get_setting` with default `None`. -/
def get_setting (db : DB) (key : String) : Option String :=
  (db.settings.find? (fun p => p.1 == key)).map (fun p => p.2)

/-- `requests.get_tariff_by_id`. -/
def get_tariff_by_id (db : DB) (tid : Nat) : Option Tariff :=
  db.tariffs.find? (fun t => t.id == tid)

/-- `requests.get_tariff_by_external_id`: matches `external_id` and
requires `is_active = 1`. -/
def get_tariff_by_external_id (db : DB) (n : Int) : Option Tariff :=
  db.tariffs.find? (fun t => t.external_id == some n && t.is_active)

/-- The dictionary produced by `requests.find_order_by_order_id`:
`p.*` plus `t.duration_days` and `t.name` from the LEFT JOIN on
`tariffs`. -/
structure OrderView where
  id : Nat
  user_id : Nat
  tariff_id : Option Nat
  order_id : String
  payment_type : Option String
  vpn_key_id : Option Nat
  amount_cents : Int
  amount_stars : Int
  period_days : Option Int
  status : OrderStatus
  paid_at : Option Int
  duration_days : Option Int
  tariff_name : Option String
  deriving DecidableEq, Repr

/-- Build the joined view of one payment row. -/
def joinOrder (db : DB) (p : Payment) : OrderView :=
  let t := p.tariff_id.bind (get_tariff_by_id db)
  { id := p.id, user_id := p.user_id, tariff_id := p.tariff_id, order_id := p.order_id
    payment_type := p.payment_type, vpn_key_id := p.vpn_key_id
    amount_cents := p.amount_cents, amount_stars := p.amount_stars
    period_days := p.period_days, status := p.status, paid_at := p.paid_at
    duration_days := t.map (fun t => t.duration_days)
    tariff_name := t.map (fun t => t.name) }

/-- `requests.find_order_by_order_id`. -/
def find_order_by_order_id (db : DB) (oid : String) : Option OrderView :=
  (db.payments.find? (fun p => p.order_id == oid)).map (joinOrder db)

/-- `requests.is_order_already_paid`: true when the stored status of the
row with this `order_id` is `'paid'`. -/
def is_order_already_paid (db : DB) (oid : String) : Bool :=
  match db.payments.find? (fun p => p.order_id == oid) with
  | some p => p.status == OrderStatus.paid
  | none => false

/-- `requests.complete_order`: the conditional update
`SET status='paid', paid_at=now WHERE order_id=? AND status='pending'`;
returns whether any row changed. -/
def complete_order (db : DB) (oid : String) : Bool × DB :=
  let hit := fun (p : Payment) => p.order_id == oid && p.status == OrderStatus.pending
  let changed := db.payments.countP hit
  let payments := db.payments.map (fun p =>
    if hit p then { p with status := OrderStatus.paid, paid_at := some db.now } else p)
  (changed > 0, { db with payments := payments })

/-- `requests.update_order_tariff`: re-snapshot amounts and period from
the tariff; `payment_type` is `COALESCE(?, payment_type)`. -/
def update_order_tariff (db : DB) (oid : String) (tid : Nat) (pt : Option String) : Bool × DB :=
  match get_tariff_by_id db tid with
  | none => (false, db)
  | some t =>
      let changed := db.payments.countP (fun p => p.order_id == oid)
      let payments := db.payments.map (fun p =>
        if p.order_id == oid then
          { p with tariff_id := some tid, amount_cents := t.price_cents,
                   amount_stars := t.price_stars, period_days := some t.duration_days,
                   payment_type := match pt with | some v => some v | none => p.payment_type }
        else p)
      (changed > 0, { db with payments := payments })

/-- `requests.update_payment_key_id`: link a created key to the payment. -/
def update_payment_key_id (db : DB) (oid : String) (kid : Nat) : Bool × DB :=
  let changed := db.payments.countP (fun p => p.order_id == oid)
  let payments := db.payments.map (fun p =>
    if p.order_id == oid then { p with vpn_key_id := some kid } else p)
  (changed > 0, { db with payments := payments })

/-- `requests.extend_vpn_key`: set `expires_at` to
`(expires_at if expires_at > now else now) + days`. -/
def extend_vpn_key (db : DB) (key_id : Nat) (days : Int) : Bool × DB :=
  let changed := db.vpn_keys.countP (fun k => k.id == key_id)
  let keys := db.vpn_keys.map (fun k =>
    if k.id == key_id then
      { k with expires_at := (if k.expires_at > db.now then k.expires_at else db.now) + days * 86400 }
    else k)
  (changed > 0, { db with vpn_keys := keys })

/-- `requests.create_initial_vpn_key`: insert a draft key, no server,
expiring `days` from now; returns the new row id. -/
def create_initial_vpn_key (db : DB) (uid : Nat) (tid : Option Nat) (days : Int) : Nat × DB :=
  let kid := db.next_key_id
  let k : VpnKey := { id := kid, user_id := uid, tariff_id := tid, server_id := none,
                      expires_at := db.now + days * 86400 }
  (kid, { db with vpn_keys := db.vpn_keys ++ [k], next_key_id := kid + 1 })

/-- `requests.create_pending_order`: snapshot the tariff (zeros and NULL
period when there is none), insert with status `'pending'`, and derive
`order_id` as `"00" + base62(row id)` (the two-step insert-then-update
collapses to inserting with the final id). -/
def create_pending_order (db : DB) (uid : Nat) (tid : Option Nat) (pt : Option String)
    (vkid : Option Nat) : (Nat × String) × DB :=
  let t := tid.bind (get_tariff_by_id db)
  let pid := db.next_payment_id
  let oid := "00" ++ int_to_base62 pid
  let row : Payment := {
    id := pid, user_id := uid, tariff_id := tid, order_id := oid,
    payment_type := pt, vpn_key_id := vkid,
    amount_cents := (t.map (fun t => t.price_cents)).getD 0,
    amount_stars := (t.map (fun t => t.price_stars)).getD 0,
    period_days := t.map (fun t => t.duration_days),
    status := OrderStatus.pending, paid_at := none }
  ((pid, oid), { db with payments := db.payments ++ [row], next_payment_id := pid + 1 })

/-- `requests.create_paid_order_external`: insert an externally named
order with the supplied snapshot, status `'pending'`, `paid_at` NULL,
no key; returns `True` (the `except` arm only fires on an
infrastructure fault, which this model does not inject). -/
def create_paid_order_external (db : DB) (oid : String) (uid : Nat) (tid : Nat) (pt : String)
    (amount_cents amount_stars period_days : Int) : Bool × DB :=
  let pid := db.next_payment_id
  let row : Payment := {
    id := pid, user_id := uid, tariff_id := some tid, order_id := oid,
    payment_type := some pt, vpn_key_id := none,
    amount_cents := amount_cents, amount_stars := amount_stars,
    period_days := some period_days, status := OrderStatus.pending, paid_at := none }
  (true, { db with payments := db.payments ++ [row], next_payment_id := pid + 1 })

/-! ## The reconciliation engine (`billing.process_payment_order`,
`billing.process_crypto_payment`, Stars receipt parsing)

`fault` models an exception thrown by the environment inside the
draft-key `try` block of `process_payment_order` (the database raising
from `create_initial_vpn_key`, before any row is inserted): `true`
takes the `except` arm.  Everything else is deterministic. -/

/-- Python truthiness of an optional integer: `None` and `0` are falsy. -/
def truthyInt : Option Int → Bool
  | none => false
  | some v => v != 0

/-- Python `a or b` on optional integers. -/
def pyOrInt (a b : Option Int) : Option Int := if truthyInt a then a else b

/-- Python `a or d` with an integer literal default. -/
def pyOrIntD (a : Option Int) (d : Int) : Int := if truthyInt a then a.getD 0 else d

/-- The triple returned by the billing entry points:
`(success, message_text, order_data)`. -/
structure PayResult where
  success : Bool
  message : String
  order : Option OrderView
  deriving DecidableEq, Repr

/-- `billing.process_payment_order`: duplicate gate, lookup, conditional
completion, then renew the referenced key or create and attach a draft
key. -/
def process_payment_order (fault : Bool) (db : DB) (order_id : String) : PayResult × DB :=
  if is_order_already_paid db order_id then
    ({ success := true, message := "✅ Этот платёж уже был обработан ранее."
       order := find_order_by_order_id db order_id }, db)
  else
    match find_order_by_order_id db order_id with
    | none =>
        ({ success := false, message := "⚠️ Ордер не найден. Обратитесь в поддержку."
           order := none }, db)
    | some order =>
        let r1 := complete_order db order_id
        let db1 := r1.2
        if !r1.1 && order.status != OrderStatus.paid then
          ({ success := false, message := "❌ Ошибка обновления статуса платежа."
             order := some order }, db1)
        else
          match order.vpn_key_id with
          | some kid =>
              let days := pyOrInt order.period_days order.duration_days
              if truthyInt days then
                let r2 := extend_vpn_key db1 kid (days.getD 0)
                if r2.1 then
                  ({ success := true
                     message := "✅ Оплата прошла успешно!\n\nВаш ключ продлён на "
                       ++ toString (days.getD 0) ++ " дней."
                     order := some order }, r2.2)
                else
                  ({ success := true
                     message := "✅ Оплата принята!\n\n⚠️ Возникла проблема с продлением. Мы разберёмся."
                     order := some order }, r2.2)
              else
                ({ success := true
                   message := "✅ Оплата принята!\n\n⚠️ Возникла проблема с продлением. Мы разберёмся."
                   order := some order }, db1)
          | none =>
              if fault then
                ({ success := true
                   message := "✅ Оплата принята, но произошла ошибка при создании ключа. Обратитесь в поддержку."
                   order := some order }, db1)
              else
                let days := pyOrIntD (pyOrInt order.period_days order.duration_days) 30
                let r2 := create_initial_vpn_key db1 order.user_id order.tariff_id days
                let r3 := update_payment_key_id r2.2 order_id r2.1
                ({ success := true, message := "✅ Оплата прошла успешно!"
                   order := some { order with vpn_key_id := some r2.1 } }, r3.2)

/-- The tariff-from-callback block of `process_crypto_payment`: when the
order exists and the payload carries a non-placeholder tariff number
that resolves to an active catalog tariff differing from the order's
(or the order is not yet typed `'crypto'`), re-snapshot the order and
the local view.  A tariff segment that fails `int()` is swallowed by
the `except` arm and changes nothing. -/
def cryptoTariffSync (db : DB) (order_id : String) (parsed : ParsedCallback)
    (order : OrderView) : DB × OrderView :=
  if parsed.tariff != "" && parsed.tariff != "_" then
    match pyInt parsed.tariff with
    | none => (db, order)
    | some next =>
        match get_tariff_by_external_id db next with
        | none => (db, order)
        | some rt =>
            if some rt.id != order.tariff_id || order.payment_type != some "crypto" then
              let r := update_order_tariff db order_id rt.id (some "crypto")
              if r.1 then
                (r.2, { order with tariff_id := some rt.id,
                                   period_days := some rt.duration_days,
                                   duration_days := some rt.duration_days,
                                   payment_type := some "crypto" })
              else (r.2, order)
            else (db, order)
  else (db, order)

/-- The tariff lookup of the external-order branch of
`process_crypto_payment`: a non-empty, non-placeholder tariff segment
parsed with `int()` and looked up by external number; a segment that
fails `int()` is swallowed by the `except` arm and resolves nothing. -/
def resolve_callback_tariff (db : DB) (parsed : ParsedCallback) : Option Tariff :=
  if parsed.tariff != "" && parsed.tariff != "_" then
    match pyInt parsed.tariff with
    | some next => get_tariff_by_external_id db next
    | none => none
  else none

/-- `billing.process_crypto_payment`: parse, check the configured
secret, verify the signature, sync the tariff chosen in the processor
UI, auto-create an absent external order (never an internal one), then
delegate to `process_payment_order`. -/
def process_crypto_payment (fault : Bool) (db : DB) (start_param : String)
    (user_id : Option Nat) : PayResult × DB :=
  match parse_crypto_callback start_param with
  | none => ({ success := false, message := "❌ Неверный формат платёжных данных", order := none }, db)
  | some parsed =>
    match get_setting db "crypto_secret_key" with
    | none =>
        ({ success := false, message := "❌ Ошибка конфигурации. Обратитесь в поддержку."
           order := none }, db)
    | some secret_key =>
      if secret_key == "" then
        ({ success := false, message := "❌ Ошибка конфигурации. Обратитесь в поддержку."
           order := none }, db)
      else if !verify_crypto_signature parsed.data_part parsed.signature secret_key then
        ({ success := false, message := "❌ Неверная подпись платежа. Попробуйте снова."
           order := none }, db)
      else
        let order_id := parsed.order_id
        let is_internal_order := pyStartsWith order_id "00"
        match find_order_by_order_id db order_id with
        | some order =>
            let synced := cryptoTariffSync db order_id parsed order
            process_payment_order fault synced.1 order_id
        | none =>
            if is_internal_order then
              ({ success := false, message := "❌ Ордер не найден в системе.", order := none }, db)
            else
              match user_id with
              | none =>
                  ({ success := false
                     message := "⚠️ Ошибка обработки внешнего заказа (нет user_id)."
                     order := none }, db)
              | some uid =>
                  match resolve_callback_tariff db parsed with
                  | none =>
                      ({ success := false, message := "❌ Ошибка: Неизвестный тариф в платеже."
                         order := none }, db)
                  | some t =>
                      if t.id == 0 then
                        -- `if not tariff_id:` also rejects a (never issued) zero row id
                        ({ success := false, message := "❌ Ошибка: Неизвестный тариф в платеже."
                           order := none }, db)
                      else
                        let amount_cents :=
                          if parsed.price != 0 && parsed.price > 0 then parsed.price
                          else t.price_cents
                        let r := create_paid_order_external db order_id uid t.id "crypto"
                                   amount_cents t.price_stars t.duration_days
                        if !r.1 then
                          ({ success := false, message := "❌ Ошибка сохранения внешнего заказа."
                             order := none }, r.2)
                        else
                          process_payment_order fault r.2 order_id

/-- The payload parsing of the Stars receipt handler
(`bot/handlers/user/payments.py::successful_payment_handler`):
`renew:` payloads take the segment after the first colon, `vpn_key:`
payloads take the Telegram payment charge id, anything else is the
bare order id. -/
def stars_payload_order_id (payload charge_id : String) : String :=
  if pyStartsWith payload "renew:" then (pySplit ':' payload).getD 1 ""
  else if pyStartsWith payload "vpn_key:" then charge_id
  else payload

/-! ## Basic lemmas about the store operations -/

/-- `find?` commutes with a row update that never changes the tested
field. -/
theorem find?_map_of_pred_stable {α : Type} (g : α → α) (pred : α → Bool)
    (h : ∀ a, pred (g a) = pred a) (l : List α) :
    (l.map g).find? pred = (l.find? pred).map g := by
  induction l with
  | nil => rfl
  | cons a t ih =>
      by_cases ha : pred a
      · simp [List.find?, h a, ha]
      · simp only [Bool.not_eq_true] at ha
        simp [List.find?, h a, ha, ih]

/-- The first row of a given `order_id`: the row `fetchone` returns. -/
def firstRow (db : DB) (oid : String) : Option Payment :=
  db.payments.find? (fun p => p.order_id == oid)

/-- `complete_order` leaves every table but `payments` alone. -/
theorem complete_order_frame (db : DB) (oid : String) :
    ((complete_order db oid).2.tariffs = db.tariffs ∧
     (complete_order db oid).2.vpn_keys = db.vpn_keys ∧
     (complete_order db oid).2.settings = db.settings ∧
     (complete_order db oid).2.now = db.now) := by
  refine ⟨rfl, rfl, rfl, rfl⟩

/-- The first row with a given `order_id` after `complete_order`:
the old first row, flipped to `paid` when it was `pending`. -/
theorem firstRow_complete_order (db : DB) (oid : String) :
    firstRow (complete_order db oid).2 oid =
      (firstRow db oid).map (fun p =>
        if p.status == OrderStatus.pending
        then { p with status := OrderStatus.paid, paid_at := some db.now } else p) := by
  unfold firstRow complete_order
  simp only
  rw [find?_map_of_pred_stable]
  · cases h : db.payments.find? (fun p => p.order_id == oid) with
    | none => rfl
    | some p =>
        have hp := List.find?_some h
        simp only [Option.map_some', hp, Bool.true_and]
  · intro a
    by_cases hh : a.order_id == oid && a.status == OrderStatus.pending
    · simp only [hh, if_pos rfl]
      simp only [Bool.and_eq_true] at hh
      simp [hh.1]
    · simp [hh]

/-- The first row with a given `order_id` after `update_payment_key_id`:
the old first row with the key attached. -/
theorem firstRow_update_payment_key_id (db : DB) (oid : String) (kid : Nat) :
    firstRow (update_payment_key_id db oid kid).2 oid =
      (firstRow db oid).map (fun p => { p with vpn_key_id := some kid }) := by
  unfold firstRow update_payment_key_id
  simp only
  rw [find?_map_of_pred_stable]
  · cases h : db.payments.find? (fun p => p.order_id == oid) with
    | none => rfl
    | some p =>
        have hp := List.find?_some h
        simp only [Option.map_some', hp, if_true]
  · intro a
    by_cases hh : a.order_id == oid
    · simp [hh]
    · simp [hh]

/-- `extend_vpn_key` never touches the `payments` table. -/
theorem extend_vpn_key_payments (db : DB) (kid : Nat) (days : Int) :
    (extend_vpn_key db kid days).2.payments = db.payments := rfl

/-- `create_initial_vpn_key` never touches the `payments` table. -/
theorem create_initial_vpn_key_payments (db : DB) (uid : Nat) (tid : Option Nat) (days : Int) :
    (create_initial_vpn_key db uid tid days).2.payments = db.payments := rfl

/-- `is_order_already_paid` in terms of the first row. -/
theorem is_order_already_paid_eq (db : DB) (oid : String) :
    is_order_already_paid db oid =
      match firstRow db oid with
      | some p => p.status == OrderStatus.paid
      | none => false := rfl

/-- `find_order_by_order_id` in terms of the first row. -/
theorem find_order_eq (db : DB) (oid : String) :
    find_order_by_order_id db oid = (firstRow db oid).map (joinOrder db) := rfl

/-- Duplicate delivery: when the stored status is already `'paid'`,
`process_payment_order` returns success with the stored order and
leaves the store untouched. -/
theorem process_paid_noop (fault : Bool) (db : DB) (oid : String) (p : Payment)
    (hfind : firstRow db oid = some p) (hpaid : p.status = OrderStatus.paid) :
    process_payment_order fault db oid =
      ({ success := true, message := "✅ Этот платёж уже был обработан ранее."
         order := find_order_by_order_id db oid }, db) := by
  have h1 : is_order_already_paid db oid = true := by
    simp only [is_order_already_paid_eq, hfind, hpaid]
    rfl
  simp [process_payment_order, h1]

/-- Completing from `pending` succeeds. -/
theorem complete_order_fires (db : DB) (oid : String) (p : Payment)
    (hfind : firstRow db oid = some p) (hpend : p.status = OrderStatus.pending) :
    (complete_order db oid).1 = true := by
  have hmem : p ∈ db.payments := List.mem_of_find?_eq_some hfind
  have hp := List.find?_some hfind
  simp only [complete_order]
  simp only [decide_eq_true_eq, List.countP_pos_iff]
  refine ⟨p, hmem, ?_⟩
  rw [hp, hpend]
  rfl

/-- After drafting a key and attaching it, the first row keeps its
status. -/
theorem firstRow_after_draft (db : DB) (oid : String) (uid : Nat) (tid : Option Nat)
    (days : Int) (kid : Nat) (p : Payment) (h : firstRow db oid = some p) :
    ∃ q, firstRow (update_payment_key_id
        (create_initial_vpn_key db uid tid days).2 oid kid).2 oid = some q ∧
      q.status = p.status ∧ q.amount_cents = p.amount_cents ∧
      q.amount_stars = p.amount_stars ∧ q.period_days = p.period_days := by
  rw [firstRow_update_payment_key_id]
  have h2 : firstRow (create_initial_vpn_key db uid tid days).2 oid = some p := h
  rw [h2]
  exact ⟨_, rfl, rfl, rfl, rfl, rfl⟩

/-- Processing an order whose stored status is `pending` always reports
success and leaves the stored status `paid`, whatever happens to the
key side effect (missing key, failed extension, or a raising draft
creation). -/
theorem process_pending_core (fault : Bool) (db : DB) (oid : String) (p : Payment)
    (hfind : firstRow db oid = some p) (hpend : p.status = OrderStatus.pending) :
    (process_payment_order fault db oid).1.success = true ∧
    ∃ q, firstRow (process_payment_order fault db oid).2 oid = some q ∧
         q.status = OrderStatus.paid ∧ q.amount_cents = p.amount_cents ∧
         q.amount_stars = p.amount_stars ∧ q.period_days = p.period_days := by
  have hpaid : is_order_already_paid db oid = false := by
    simp only [is_order_already_paid_eq, hfind, hpend]
    rfl
  have hfo : find_order_by_order_id db oid = some (joinOrder db p) := by
    rw [find_order_eq, hfind]
    rfl
  have hc1 : (complete_order db oid).1 = true := complete_order_fires db oid p hfind hpend
  have hrow : firstRow (complete_order db oid).2 oid =
      some { p with status := OrderStatus.paid, paid_at := some db.now } := by
    rw [firstRow_complete_order, hfind]
    simp only [Option.map_some', hpend]
    rfl
  simp only [process_payment_order, hpaid, hfo, hc1, Bool.not_true, Bool.false_and,
    Bool.false_eq_true, if_false, joinOrder]
  cases hk : p.vpn_key_id with
  | some kid =>
      simp only [hk]
      split
      · split
        · exact ⟨by trivial, ⟨_, hrow, rfl, rfl, rfl, rfl⟩⟩
        · exact ⟨by trivial, ⟨_, hrow, rfl, rfl, rfl, rfl⟩⟩
      · exact ⟨by trivial, ⟨_, hrow, rfl, rfl, rfl, rfl⟩⟩
  | none =>
      simp only [hk]
      cases fault with
      | true => exact ⟨by trivial, ⟨_, hrow, rfl, rfl, rfl, rfl⟩⟩
      | false =>
          simp only [Bool.false_eq_true, if_false]
          obtain ⟨q, hq, hst, hac, has, hpd⟩ :=
            firstRow_after_draft (complete_order db oid).2 oid _ _ _ _ _ hrow
          exact ⟨by trivial, q, hq, hst, hac, has, hpd⟩

/-! ## Lemmas about the parsed payload -/

/-- No segment produced by the split worker contains the separator. -/
theorem pySplitAux_no_sep (sep : Char) (cs : List Char) :
    ∀ cur, sep ∉ cur → ∀ l ∈ pySplitAux sep cur cs, sep ∉ l := by
  induction cs with
  | nil =>
      intro cur hcur l hl
      simp only [pySplitAux, List.mem_singleton] at hl
      subst hl
      simpa using hcur
  | cons c rest ih =>
      intro cur hcur l hl
      simp only [pySplitAux] at hl
      by_cases hc : c == sep
      · rw [if_pos hc] at hl
        rcases List.mem_cons.mp hl with h | h
        · subst h
          simpa using hcur
        · exact ih [] (by simp) l h
      · rw [if_neg hc] at hl
        refine ih (c :: cur) ?_ l hl
        intro hmem
        rcases List.mem_cons.mp hmem with h | h
        · exact hc (by simp [h])
        · exact hcur h

/-- No segment of a Python split contains the separator. -/
theorem pySplit_no_sep (sep : Char) (s : String) :
    ∀ seg ∈ pySplit sep s, sep ∉ seg.data := by
  intro seg hseg
  simp only [pySplit, List.mem_map] at hseg
  obtain ⟨cs, hcs, rfl⟩ := hseg
  exact pySplitAux_no_sep sep s.data [] (by simp) cs hcs

/-- Characters surviving Python's whitespace strip come from the
original string. -/
theorem mem_of_mem_strip (f : Char → Bool) (l : List Char) (x : Char)
    (h : x ∈ ((l.dropWhile f).reverse.dropWhile f).reverse) : x ∈ l := by
  rw [List.mem_reverse] at h
  have h2 := (List.dropWhile_sublist f).mem h
  rw [List.mem_reverse] at h2
  exact (List.dropWhile_sublist f).mem h2

/-- `int()` can only return a negative value when the string contains a
minus sign. -/
theorem pyInt_nonneg_of_no_minus (s : String) (v : Int)
    (hv : pyInt s = some v) (hm : '-' ∉ s.data) : 0 ≤ v := by
  unfold pyInt at hv
  simp only at hv
  split at hv
  · rename_i rest heq
    exfalso
    apply hm
    apply mem_of_mem_strip _ s.data '-'
    rw [heq]
    exact List.mem_cons_self _ _
  · rename_i rest heq
    obtain ⟨n, hn, hv2⟩ := Option.map_eq_some'.mp hv
    rw [← hv2]
    exact Int.natCast_nonneg n
  · rename_i heq h1 h2
    obtain ⟨n, hn, hv2⟩ := Option.map_eq_some'.mp hv
    rw [← hv2]
    exact Int.natCast_nonneg n

/-- A parsed callback never carries a negative price: every segment of
the dash-split payload is dash-free, so `int()` cannot see a sign. -/
theorem parse_crypto_callback_price_nonneg (sp : String) (parsed : ParsedCallback)
    (h : parse_crypto_callback sp = some parsed) : 0 ≤ parsed.price := by
  simp only [parse_crypto_callback] at h
  split at h
  · exact absurd h (by simp)
  · split at h
    · exact absurd h (by simp)
    · split at h
      · exact absurd h (by simp)
      · rename_i price heq
        simp only [Option.some.injEq] at h
        subst h
        simp only
        by_cases hph : (pySplit '-' sp).getD 5 "" != "_"
        · rw [if_pos hph] at heq
          refine pyInt_nonneg_of_no_minus _ _ heq ?_
          rcases Nat.lt_or_ge 5 (pySplit '-' sp).length with h5 | h5
          · have hmem : (pySplit '-' sp).getD 5 "" ∈ pySplit '-' sp := by
              rw [List.getD_eq_getElem _ _ h5]
              exact List.getElem_mem h5
            exact pySplit_no_sep '-' sp _ hmem
          · have : (pySplit '-' sp).getD 5 "" = "" := by
              rw [List.getD_eq_default]
              omega
            rw [this]
            simp
        · rw [if_neg hph] at heq
          cases heq
          decide

/-! ## Concrete fixtures used by the witnesses -/

/-- A 30-day tariff, external number 2. -/
def tariffM : Tariff :=
  { id := 3, name := "Месяц", duration_days := 30, price_cents := 500,
    price_stars := 150, external_id := some 2, is_active := true }

/-- A 60-day tariff, external number 5. -/
def tariffQ : Tariff :=
  { id := 9, name := "Квартал", duration_days := 60, price_cents := 1100,
    price_stars := 400, external_id := some 5, is_active := true }

/-- A provisioned key with a future expiry. -/
def keyW : VpnKey :=
  { id := 1, user_id := 7, tariff_id := some 3, server_id := some 4, expires_at := 2000000 }

/-- A pending internal Stars order for a new key. -/
def rowDraft : Payment :=
  { id := 1, user_id := 7, tariff_id := some 3, order_id := "001",
    payment_type := some "stars", vpn_key_id := none, amount_cents := 500,
    amount_stars := 150, period_days := some 30, status := OrderStatus.pending,
    paid_at := none }

/-- A pending renewal order pointing at a key row that does not exist. -/
def rowRenew : Payment :=
  { id := 2, user_id := 7, tariff_id := some 3, order_id := "002",
    payment_type := some "stars", vpn_key_id := some 5, amount_cents := 500,
    amount_stars := 150, period_days := some 30, status := OrderStatus.pending,
    paid_at := none }

/-- The witness store: two pending orders, two tariffs, one key, the
configured secret. -/
def dbW : DB :=
  { payments := [rowDraft, rowRenew], tariffs := [tariffM, tariffQ], vpn_keys := [keyW],
    settings := [("crypto_secret_key", "s3cr3t")], next_payment_id := 3, next_key_id := 2,
    now := 1000000 }

/-! ## The claims -/

/-- **C1** Idempotent completion: an order whose stored status is
already `'paid'` makes `process_payment_order` return success with the
existing order and leave the store untouched — no key extension, no
draft creation; an order completed from `pending` reports success,
ends `paid`, and every later delivery of the same signal is exactly
that side-effect-free success. -/
theorem idempotent_completion (fault fault2 : Bool) (db : DB) (oid : String) (p : Payment)
    (hfind : firstRow db oid = some p) :
    (p.status = OrderStatus.paid →
        process_payment_order fault db oid =
          ({ success := true, message := "✅ Этот платёж уже был обработан ранее."
             order := find_order_by_order_id db oid }, db)) ∧
    (p.status = OrderStatus.pending →
        (process_payment_order fault db oid).1.success = true ∧
        (∃ q, firstRow (process_payment_order fault db oid).2 oid = some q ∧
              q.status = OrderStatus.paid) ∧
        process_payment_order fault2 (process_payment_order fault db oid).2 oid =
          ({ success := true, message := "✅ Этот платёж уже был обработан ранее."
             order := find_order_by_order_id (process_payment_order fault db oid).2 oid },
           (process_payment_order fault db oid).2)) := by
  constructor
  · intro hpaid
    exact process_paid_noop fault db oid p hfind hpaid
  · intro hpend
    obtain ⟨hsuc, q, hq, hqs, _, _, _⟩ := process_pending_core fault db oid p hfind hpend
    exact ⟨hsuc, ⟨q, hq, hqs⟩, process_paid_noop fault2 _ oid q hq hqs⟩

/-- Witness for C1 on the concrete store: paying the pending order
`"001"` succeeds, flips it to `paid`, and a duplicate delivery is a
pure success returning the stored order with the state unchanged. -/
theorem idempotent_completion_witness :
    (process_payment_order false dbW "001").1.success = true ∧
    (∃ q, firstRow (process_payment_order false dbW "001").2 "001" = some q ∧
          q.status = OrderStatus.paid) ∧
    process_payment_order false (process_payment_order false dbW "001").2 "001" =
      ({ success := true, message := "✅ Этот платёж уже был обработан ранее."
         order := find_order_by_order_id (process_payment_order false dbW "001").2 "001" },
       (process_payment_order false dbW "001").2) :=
  (idempotent_completion false false dbW "001" rowDraft (by decide)).2 rfl

/-- **C2** Conditional transition: `complete_order` fires exactly when a
row with the given id is `pending`; afterwards no row of that id is
`pending` any more, the fired row is stored `paid`, and a repeated call
returns `false` without changing the store. -/
theorem conditional_transition (db : DB) (oid : String) :
    ((complete_order db oid).1 = true ↔
        ∃ p ∈ db.payments, p.order_id = oid ∧ p.status = OrderStatus.pending) ∧
    (∀ p ∈ (complete_order db oid).2.payments, p.order_id = oid →
        p.status ≠ OrderStatus.pending) ∧
    ((complete_order db oid).1 = true →
        ∃ p ∈ (complete_order db oid).2.payments, p.order_id = oid ∧
          p.status = OrderStatus.paid) ∧
    complete_order (complete_order db oid).2 oid = (false, (complete_order db oid).2) := by
  have h2 : ∀ p ∈ (complete_order db oid).2.payments, p.order_id = oid →
      p.status ≠ OrderStatus.pending := by
    intro p hp hpid
    simp only [complete_order, List.mem_map] at hp
    obtain ⟨q, hq, rfl⟩ := hp
    by_cases hhit : (q.order_id == oid && q.status == OrderStatus.pending) = true
    · simp [hhit]
    · rw [if_neg hhit] at hpid ⊢
      simp only [Bool.and_eq_true, beq_iff_eq, not_and] at hhit
      intro hst
      exact hhit hpid hst
  refine ⟨?_, h2, ?_, ?_⟩
  · simp only [complete_order, decide_eq_true_eq, List.countP_pos_iff, Bool.and_eq_true,
      beq_iff_eq]
  · intro h1
    simp only [complete_order, decide_eq_true_eq, List.countP_pos_iff] at h1
    obtain ⟨q, hq, hhit⟩ := h1
    refine ⟨{ q with status := OrderStatus.paid, paid_at := some db.now }, ?_, ?_, rfl⟩
    · simp only [complete_order]
      exact List.mem_map.mpr ⟨q, hq, by simp [hhit]⟩
    · simp only [Bool.and_eq_true, beq_iff_eq] at hhit
      exact hhit.1
  · have hcount : (complete_order db oid).2.payments.countP
        (fun p => p.order_id == oid && p.status == OrderStatus.pending) = 0 := by
      rw [List.countP_eq_zero]
      intro p hp hcontra
      simp only [Bool.and_eq_true, beq_iff_eq] at hcontra
      exact h2 p hp hcontra.1 hcontra.2
    have hid : ∀ p ∈ (complete_order db oid).2.payments,
        (if (p.order_id == oid && p.status == OrderStatus.pending) = true
         then { p with status := OrderStatus.paid, paid_at := some (complete_order db oid).2.now }
         else p) = p := by
      intro p hp
      rw [if_neg]
      intro hc
      simp only [Bool.and_eq_true, beq_iff_eq] at hc
      exact h2 p hp hc.1 hc.2
    have hmap := (List.map_congr_left hid).trans
      (List.map_id (complete_order db oid).2.payments)
    generalize hst : (complete_order db oid).2 = st1 at hcount hmap ⊢
    show complete_order st1 oid = (false, st1)
    simp only [complete_order]
    rw [hcount, hmap]
    rfl

/-- Witness for C2: completing the pending order `"001"` returns true
once and false (with no state change) on the second call. -/
theorem conditional_transition_witness :
    (complete_order dbW "001").1 = true ∧
    complete_order (complete_order dbW "001").2 "001" =
      (false, (complete_order dbW "001").2) :=
  ⟨(conditional_transition dbW "001").1.mpr ⟨rowDraft, by decide, rfl, rfl⟩,
   (conditional_transition dbW "001").2.2.2⟩

/-- **C5** No rollback after payment: once the order was `pending` (so
`complete_order` fires), `process_payment_order` reports success and
the stored status stays `paid` no matter what the key side effect does;
a failing `extend_vpn_key` yields the "problem with renewal" follow-up
message, a raising draft creation the "error creating key" follow-up
message — never a failed payment. -/
theorem no_rollback_after_payment (fault : Bool) (db : DB) (oid : String) (p : Payment)
    (hfind : firstRow db oid = some p) (hpend : p.status = OrderStatus.pending) :
    (process_payment_order fault db oid).1.success = true ∧
    (∃ q, firstRow (process_payment_order fault db oid).2 oid = some q ∧
          q.status = OrderStatus.paid) ∧
    (∀ kid, p.vpn_key_id = some kid →
        truthyInt (pyOrInt p.period_days
          ((p.tariff_id.bind (get_tariff_by_id db)).map (fun t => t.duration_days))) = true →
        db.vpn_keys.countP (fun k => k.id == kid) = 0 →
        (process_payment_order fault db oid).1.message =
          "✅ Оплата принята!\n\n⚠️ Возникла проблема с продлением. Мы разберёмся.") ∧
    (p.vpn_key_id = none → fault = true →
        (process_payment_order fault db oid).1.message =
          "✅ Оплата принята, но произошла ошибка при создании ключа. Обратитесь в поддержку.") := by
  obtain ⟨hsuc, q0, hq0, hq0s, _, _, _⟩ := process_pending_core fault db oid p hfind hpend
  have hex : ∃ q, firstRow (process_payment_order fault db oid).2 oid = some q ∧
      q.status = OrderStatus.paid := ⟨q0, hq0, hq0s⟩
  have hpaid : is_order_already_paid db oid = false := by
    simp only [is_order_already_paid_eq, hfind, hpend]
    rfl
  have hfo : find_order_by_order_id db oid = some (joinOrder db p) := by
    rw [find_order_eq, hfind]
    rfl
  have hc1 := complete_order_fires db oid p hfind hpend
  refine ⟨hsuc, hex, ?_, ?_⟩
  · intro kid hk ht hnokey
    have hext : ∀ d : Int, (extend_vpn_key (complete_order db oid).2 kid d).1 = false := by
      intro d
      simp only [extend_vpn_key]
      have hfr : (complete_order db oid).2.vpn_keys = db.vpn_keys := rfl
      rw [hfr, hnokey]
      rfl
    simp only [process_payment_order, hpaid, hfo, hc1, Bool.not_true, Bool.false_and,
      Bool.false_eq_true, if_false, joinOrder, hk, ht, if_true, hext]
  · intro hk hf
    subst hf
    simp only [process_payment_order, hpaid, hfo, hc1, Bool.not_true, Bool.false_and,
      Bool.false_eq_true, if_false, joinOrder, hk, if_true]

/-- Witness for C5: paying the renewal order `"002"` whose key row is
missing still reports success, with the follow-up message. -/
theorem no_rollback_after_payment_witness :
    (process_payment_order false dbW "002").1.success = true ∧
    (process_payment_order false dbW "002").1.message =
      "✅ Оплата принята!\n\n⚠️ Возникла проблема с продлением. Мы разберёмся." := by
  obtain ⟨hs, _, hmsg, _⟩ := no_rollback_after_payment false dbW "002" rowRenew (by decide) rfl
  exact ⟨hs, hmsg 5 rfl (by decide) (by decide)⟩

/-- **C6** Renewal anchor rule: `extend_vpn_key` adds `days` on top of
the current expiry when that is still in the future, and on top of the
current clock when the key has lapsed — never shortening remaining
access and never crediting time that already elapsed. -/
theorem renewal_anchor_rule (db : DB) (kid : Nat) (days : Int) (k : VpnKey)
    (hfind : db.vpn_keys.find? (fun q => q.id == kid) = some k) (_hpos : 0 < days) :
    ∃ k2, (extend_vpn_key db kid days).2.vpn_keys.find? (fun q => q.id == kid) = some k2 ∧
      (db.now < k.expires_at → k2.expires_at = k.expires_at + days * 86400) ∧
      (k.expires_at < db.now → k2.expires_at = db.now + days * 86400) ∧
      k2.expires_at =
        (if k.expires_at > db.now then k.expires_at else db.now) + days * 86400 := by
  have hk := List.find?_some hfind
  have hmap : (extend_vpn_key db kid days).2.vpn_keys.find? (fun q => q.id == kid) =
      (db.vpn_keys.find? (fun q => q.id == kid)).map (fun q =>
        if q.id == kid then
          { q with expires_at :=
              (if q.expires_at > db.now then q.expires_at else db.now) + days * 86400 }
        else q) := by
    simp only [extend_vpn_key]
    exact find?_map_of_pred_stable _ _ (by
      intro a
      by_cases hh : a.id == kid
      · simp [hh]
      · simp [hh]) _
  rw [hfind, Option.map_some'] at hmap
  refine ⟨{ k with expires_at :=
      (if k.expires_at > db.now then k.expires_at else db.now) + days * 86400 },
    by rw [hmap, hk]; rfl, ?_, ?_, rfl⟩
  · intro h
    simp only
    rw [if_pos h]
  · intro h
    simp only
    rw [if_neg (lt_asymm h)]

/-- Witness for C6: extending the future-dated key of the concrete
store by 5 days lands on `old expiry + 5 days`. -/
theorem renewal_anchor_rule_witness :
    ∃ k2, (extend_vpn_key dbW 1 5).2.vpn_keys.find? (fun q => q.id == 1) = some k2 ∧
      k2.expires_at = 2000000 + 5 * 86400 := by
  obtain ⟨k2, h1, h2, _, _⟩ := renewal_anchor_rule dbW 1 5 keyW (by decide) (by decide)
  exact ⟨k2, h1, h2 (by decide)⟩

/-- The row `create_pending_order` inserts when the tariff resolves. -/
def snapshotRow (pid uid tid : Nat) (pt : Option String) (vkid : Option Nat) (t : Tariff) :
    Payment :=
  { id := pid, user_id := uid, tariff_id := some tid,
    order_id := "00" ++ int_to_base62 pid, payment_type := pt, vpn_key_id := vkid,
    amount_cents := t.price_cents, amount_stars := t.price_stars,
    period_days := some t.duration_days, status := OrderStatus.pending, paid_at := none }

/-- The re-snapshot `update_order_tariff` writes into a row. -/
def resnapRow (p : Payment) (tid : Nat) (pt : Option String) (t : Tariff) : Payment :=
  { p with tariff_id := some tid, amount_cents := t.price_cents,
           amount_stars := t.price_stars, period_days := some t.duration_days,
           payment_type := match pt with | some v => some v | none => p.payment_type }

/-- **C7** Tariff snapshot immutability: an order finalized with tariff
`t` (at creation or by `update_order_tariff`) stores `t`'s price and
duration in its own row, and in any later store whose catalog changed
arbitrarily (same `payments` table) the stored amounts and the days
applied at completion (`period_days or duration_days [or 30]`) are
still exactly the snapshot — never a live join. -/
theorem tariff_snapshot_immutability (db : DB) (uid : Nat) (tid : Nat) (pt : Option String)
    (vkid : Option Nat) (t : Tariff) (ht : get_tariff_by_id db tid = some t)
    (hdur : t.duration_days ≠ 0)
    (hfresh : firstRow db (create_pending_order db uid (some tid) pt vkid).1.2 = none) :
    (∀ db2 : DB, db2.payments = (create_pending_order db uid (some tid) pt vkid).2.payments →
      ∃ v, find_order_by_order_id db2 (create_pending_order db uid (some tid) pt vkid).1.2
            = some v ∧
        v.amount_cents = t.price_cents ∧ v.amount_stars = t.price_stars ∧
        v.period_days = some t.duration_days ∧
        pyOrInt v.period_days v.duration_days = some t.duration_days ∧
        pyOrIntD (pyOrInt v.period_days v.duration_days) 30 = t.duration_days) ∧
    (∀ oid2 p0, firstRow db oid2 = some p0 →
      ∀ db2 : DB, db2.payments = (update_order_tariff db oid2 tid pt).2.payments →
        ∃ v, find_order_by_order_id db2 oid2 = some v ∧
          v.amount_cents = t.price_cents ∧ v.amount_stars = t.price_stars ∧
          v.period_days = some t.duration_days ∧
          pyOrInt v.period_days v.duration_days = some t.duration_days) := by
  have htr : truthyInt (some t.duration_days) = true := by
    simp only [truthyInt, bne_iff_ne, ne_eq, decide_eq_true_eq]
    exact hdur
  constructor
  · intro db2 hpay
    have hnew : (create_pending_order db uid (some tid) pt vkid).2.payments =
        db.payments ++ [snapshotRow db.next_payment_id uid tid pt vkid t] := by
      simp only [create_pending_order, Option.some_bind, ht, Option.map_some',
        Option.getD_some, snapshotRow]
    have hfr : firstRow db2 (create_pending_order db uid (some tid) pt vkid).1.2 =
        some (snapshotRow db.next_payment_id uid tid pt vkid t) := by
      unfold firstRow at hfresh ⊢
      have hoid : (create_pending_order db uid (some tid) pt vkid).1.2 =
          "00" ++ int_to_base62 db.next_payment_id := rfl
      rw [hpay, hnew, List.find?_append, hfresh, hoid]
      simp [snapshotRow]
    refine ⟨_, by rw [find_order_eq, hfr]; rfl, rfl, rfl, rfl, ?_, ?_⟩
    · simp only [joinOrder, snapshotRow, pyOrInt, htr, if_true]
    · simp only [joinOrder, snapshotRow, pyOrInt, pyOrIntD, htr, if_true, Option.getD_some]
  · intro oid2 p0 hp0 db2 hpay
    have hp := List.find?_some hp0
    have hupd : (update_order_tariff db oid2 tid pt).2.payments =
        db.payments.map (fun p => if p.order_id == oid2 then resnapRow p tid pt t else p) := by
      simp only [update_order_tariff, ht, resnapRow]
    have hfr : firstRow db2 oid2 = some (resnapRow p0 tid pt t) := by
      unfold firstRow at hp0 ⊢
      rw [hpay, hupd, find?_map_of_pred_stable _ _ (by
        intro a
        by_cases hh : a.order_id == oid2
        · simp [hh, resnapRow]
        · simp [hh]), hp0, Option.map_some', hp]
      rfl
    refine ⟨_, by rw [find_order_eq, hfr]; rfl, rfl, rfl, rfl, ?_⟩
    simp only [joinOrder, resnapRow, pyOrInt, htr, if_true]

/-- An empty store used to create the snapshot-witness order. -/
def dbC7 : DB :=
  { payments := [], tariffs := [tariffM, tariffQ], vpn_keys := [],
    settings := [("crypto_secret_key", "s3cr3t")], next_payment_id := 1, next_key_id := 1,
    now := 1000000 }

/-- The same store after the order was created and the catalog entry
was repriced to 999 cents and 90 days. -/
def dbC7x : DB :=
  { (create_pending_order dbC7 7 (some 3) (some "stars") none).2 with
    tariffs := [{ tariffM with price_cents := 999, duration_days := 90 }, tariffQ] }

/-- Witness for C7: after repricing the catalog, the stored amount is
still 500 cents and completion still applies 30 days. -/
theorem tariff_snapshot_immutability_witness :
    ∃ v, find_order_by_order_id dbC7x
        (create_pending_order dbC7 7 (some 3) (some "stars") none).1.2 = some v ∧
      v.amount_cents = 500 ∧
      pyOrIntD (pyOrInt v.period_days v.duration_days) 30 = 30 := by
  obtain ⟨h1, _⟩ := tariff_snapshot_immutability dbC7 7 3 (some "stars") none tariffM rfl
    (by decide) (by decide)
  obtain ⟨v, hv, hc, _, _, _, hd⟩ := h1 dbC7x rfl
  exact ⟨v, hv, hc.trans rfl, hd.trans rfl⟩

/-- **C3** Signature round-trip: a signature computed by the specified
algorithm — Base62, digits-then-uppercase-then-lowercase, no padding,
over the first 11 bytes of HMAC-SHA256(secret, data_part) — always
verifies against the same inputs; any other signature string is
rejected; and a changed `data_part` is rejected whenever its truncated
digest differs (collision freedom of the truncated HMAC is a
cryptographic hypothesis, never provable for the concrete function). -/
theorem signature_round_trip (d k : String) :
    verify_crypto_signature d (crypto_signature d k) k = true ∧
    (∀ s2, s2 ≠ crypto_signature d k → verify_crypto_signature d s2 k = false) ∧
    (∀ d2, crypto_signature d2 k ≠ crypto_signature d k →
        verify_crypto_signature d2 (crypto_signature d k) k = false) := by
  refine ⟨?_, ?_, ?_⟩
  · simp [verify_crypto_signature]
  · intro s2 hs
    simp only [verify_crypto_signature, beq_eq_false_iff_ne, ne_eq]
    exact fun h => hs h.symm
  · intro d2 hd
    simp only [verify_crypto_signature, beq_eq_false_iff_ne, ne_eq]
    exact hd

set_option maxRecDepth 1000000 in
set_option maxHeartbeats 1000000 in
/-- Witness for C3 at a concrete payload and secret: the honest
signature verifies, the empty signature fails, and flipping the first
character of `data_part` fails. -/
theorem signature_round_trip_witness :
    verify_crypto_signature "bill1-a-b-2-_-5" (crypto_signature "bill1-a-b-2-_-5" "s3cr3t")
      "s3cr3t" = true ∧
    verify_crypto_signature "bill1-a-b-2-_-5" "" "s3cr3t" = false ∧
    verify_crypto_signature "cill1-a-b-2-_-5" (crypto_signature "bill1-a-b-2-_-5" "s3cr3t")
      "s3cr3t" = false := by
  obtain ⟨h1, h2, h3⟩ := signature_round_trip "bill1-a-b-2-_-5" "s3cr3t"
  exact ⟨h1, h2 "" (by decide), h3 "cill1-a-b-2-_-5" (by decide)⟩

/-- **C4** Rejection before mutation: a callback that does not start
with the fixed prefix, or splits into fewer than 7 dash segments, or
has a non-integer non-placeholder price segment, fails parsing; a
parse failure or a signature that does not verify against the
configured secret makes `process_crypto_payment` return failure with
the store byte-for-byte unchanged — no order created, completed,
re-tariffed or key-linked. -/
theorem rejection_before_mutation (fault : Bool) (db : DB) (sp : String) (uid : Option Nat) :
    (pyStartsWith sp "bill" = false → parse_crypto_callback sp = none) ∧
    ((pySplit '-' sp).length < 7 → parse_crypto_callback sp = none) ∧
    (∀ seg, (pySplit '-' sp).getD 5 "" = seg → seg ≠ "_" → pyInt seg = none →
        parse_crypto_callback sp = none) ∧
    (parse_crypto_callback sp = none →
        process_crypto_payment fault db sp uid =
          ({ success := false, message := "❌ Неверный формат платёжных данных",
             order := none }, db)) ∧
    (∀ parsed secret, parse_crypto_callback sp = some parsed →
        get_setting db "crypto_secret_key" = some secret → secret ≠ "" →
        verify_crypto_signature parsed.data_part parsed.signature secret = false →
        process_crypto_payment fault db sp uid =
          ({ success := false, message := "❌ Неверная подпись платежа. Попробуйте снова.",
             order := none }, db)) := by
  refine ⟨?_, ?_, ?_, ?_, ?_⟩
  · intro h
    simp [parse_crypto_callback, h]
  · intro h
    by_cases h1 : (sp == "" || !pyStartsWith sp "bill") = true
    · simp [parse_crypto_callback, h1]
    · simp only [Bool.not_eq_true] at h1
      simp [parse_crypto_callback, h1, h]
  · intro seg hseg hne hpy
    by_cases h1 : (sp == "" || !pyStartsWith sp "bill") = true
    · simp [parse_crypto_callback, h1]
    · simp only [Bool.not_eq_true] at h1
      by_cases h2 : (pySplit '-' sp).length < 7
      · simp [parse_crypto_callback, h1, h2]
      · have hne2 : (pySplit '-' sp).getD 5 "" ≠ "_" := by
          rw [hseg]
          exact hne
        have hpy2 : pyInt ((pySplit '-' sp).getD 5 "") = none := by
          rw [hseg]
          exact hpy
        rw [List.getD_eq_getElem?_getD] at hne2 hpy2
        simp [parse_crypto_callback, h1, h2, hne2, hpy2]
  · intro hparse
    simp [process_crypto_payment, hparse]
  · intro parsed secret hparse hsec hne hsig
    have hb : (secret == "") = false := beq_eq_false_iff_ne.mpr hne
    simp [process_crypto_payment, hparse, hsec, hb, hsig]

set_option maxRecDepth 1000000 in
set_option maxHeartbeats 1000000 in
/-- Witness for C4: a shapeless payload and a wrong signature are both
rejected with the concrete store returned untouched. -/
theorem rejection_before_mutation_witness :
    process_crypto_payment false dbW "xyz" none =
      ({ success := false, message := "❌ Неверный формат платёжных данных",
         order := none }, dbW) ∧
    process_crypto_payment false dbW "bill1-EXT7-5821-5-_-1200-WRONG" (some 7) =
      ({ success := false, message := "❌ Неверная подпись платежа. Попробуйте снова.",
         order := none }, dbW) := by
  constructor
  · exact (rejection_before_mutation false dbW "xyz" none).2.2.2.1 rfl
  · exact (rejection_before_mutation false dbW "bill1-EXT7-5821-5-_-1200-WRONG"
      (some 7)).2.2.2.2
      { head_seg := "bill1", order_id := "EXT7", item_id := "5821", tariff := "5",
        promo := "_", price := 1200, signature := "WRONG",
        data_part := "bill1-EXT7-5821-5-_-1200" }
      "s3cr3t" (by decide) rfl (by decide) (by decide)

/-- **C8** Crypto order-creation rule: with a verified payload whose
order id is absent from the store, an internal-namespace id (our `"00"`
prefix) is always rejected and never auto-created; an external id is
rejected without a row when no caller `user_id` is supplied or when the
payload's tariff number does not resolve in the catalog; and an order
row for the id can appear only when all three conditions hold. -/
theorem crypto_order_creation_rule (fault : Bool) (db : DB) (sp : String) (uid : Option Nat)
    (parsed : ParsedCallback) (secret : String)
    (hparse : parse_crypto_callback sp = some parsed)
    (hsec : get_setting db "crypto_secret_key" = some secret) (hne : secret ≠ "")
    (hsig : verify_crypto_signature parsed.data_part parsed.signature secret = true)
    (habsent : firstRow db parsed.order_id = none) :
    (pyStartsWith parsed.order_id "00" = true →
        process_crypto_payment fault db sp uid =
          ({ success := false, message := "❌ Ордер не найден в системе.", order := none }, db)) ∧
    (pyStartsWith parsed.order_id "00" = false → uid = none →
        process_crypto_payment fault db sp uid =
          ({ success := false, message := "⚠️ Ошибка обработки внешнего заказа (нет user_id)."
             order := none }, db)) ∧
    (pyStartsWith parsed.order_id "00" = false → ∀ u, uid = some u →
        resolve_callback_tariff db parsed = none →
        process_crypto_payment fault db sp uid =
          ({ success := false, message := "❌ Ошибка: Неизвестный тариф в платеже."
             order := none }, db)) ∧
    ((∃ q ∈ (process_crypto_payment fault db sp uid).2.payments,
        q.order_id = parsed.order_id) →
      pyStartsWith parsed.order_id "00" = false ∧ uid ≠ none ∧
      resolve_callback_tariff db parsed ≠ none) := by
  have hb : (secret == "") = false := beq_eq_false_iff_ne.mpr hne
  have hfo : find_order_by_order_id db parsed.order_id = none := by
    rw [find_order_eq, habsent]
    rfl
  have hnone : ∀ q ∈ db.payments, q.order_id ≠ parsed.order_id := by
    intro q hq
    have := List.find?_eq_none.mp habsent q hq
    simpa using this
  refine ⟨?_, ?_, ?_, ?_⟩
  · intro hint
    simp [process_crypto_payment, hparse, hsec, hb, hsig, hfo, hint]
  · intro hint huid
    subst huid
    simp [process_crypto_payment, hparse, hsec, hb, hsig, hfo, hint]
  · intro hint u huid hres
    subst huid
    simp [process_crypto_payment, hparse, hsec, hb, hsig, hfo, hint, hres]
  · intro hq
    by_cases hint : pyStartsWith parsed.order_id "00" = true
    · exfalso
      rw [(by simp [process_crypto_payment, hparse, hsec, hb, hsig, hfo, hint] :
        process_crypto_payment fault db sp uid =
          ({ success := false, message := "❌ Ордер не найден в системе.", order := none }, db))]
        at hq
      obtain ⟨q, hmem, hqid⟩ := hq
      exact hnone q hmem hqid
    · simp only [Bool.not_eq_true] at hint
      cases huid : uid with
      | none =>
          exfalso
          rw [huid] at hq
          rw [(by simp [process_crypto_payment, hparse, hsec, hb, hsig, hfo, hint] :
            process_crypto_payment fault db sp none =
              ({ success := false
                 message := "⚠️ Ошибка обработки внешнего заказа (нет user_id)."
                 order := none }, db))] at hq
          · obtain ⟨q, hmem, hqid⟩ := hq
            exact hnone q hmem hqid
      | some u =>
          rw [huid] at hq
          cases hres : resolve_callback_tariff db parsed with
          | none =>
              exfalso
              rw [(by simp [process_crypto_payment, hparse, hsec, hb, hsig, hfo, hint, hres] :
                process_crypto_payment fault db sp (some u) =
                  ({ success := false, message := "❌ Ошибка: Неизвестный тариф в платеже."
                     order := none }, db))] at hq
              obtain ⟨q, hmem, hqid⟩ := hq
              exact hnone q hmem hqid
          | some t =>
              exact ⟨hint, by simp, by simp [hres]⟩

set_option maxRecDepth 1000000 in
set_option maxHeartbeats 1000000 in
/-- Witness for C8: a correctly signed callback naming the unknown
internal id `"00ZZ"` is rejected, and one naming the unknown external
id `"EXT7"` with the unresolvable tariff number 7 is rejected, both
leaving the concrete store unchanged. -/
theorem crypto_order_creation_rule_witness :
    process_crypto_payment false dbW "bill1-00ZZ-5821-5-_-1200-6ZJlXefQQX22HVJ" (some 7) =
      ({ success := false, message := "❌ Ордер не найден в системе.", order := none }, dbW) ∧
    process_crypto_payment false dbW "bill1-EXT7-5821-7-_-0-GIMljGrz7hBHI6X" (some 7) =
      ({ success := false, message := "❌ Ошибка: Неизвестный тариф в платеже."
         order := none }, dbW) := by
  constructor
  · exact (crypto_order_creation_rule false dbW "bill1-00ZZ-5821-5-_-1200-6ZJlXefQQX22HVJ"
      (some 7)
      { head_seg := "bill1", order_id := "00ZZ", item_id := "5821", tariff := "5",
        promo := "_", price := 1200, signature := "6ZJlXefQQX22HVJ",
        data_part := "bill1-00ZZ-5821-5-_-1200" }
      "s3cr3t" (by decide) rfl (by decide) (by decide) (by decide)).1 (by decide)
  · exact (crypto_order_creation_rule false dbW "bill1-EXT7-5821-7-_-0-GIMljGrz7hBHI6X"
      (some 7)
      { head_seg := "bill1", order_id := "EXT7", item_id := "5821", tariff := "7",
        promo := "_", price := 0, signature := "GIMljGrz7hBHI6X",
        data_part := "bill1-EXT7-5821-7-_-0" }
      "s3cr3t" (by decide) rfl (by decide) (by decide) (by decide)).2.2.1 (by decide) 7 rfl
      (by decide)

/-- **C9 counterexample**: the payload `"vpn_key:42"` is not of the
`renew:` shape, yet the handler does not use the whole payload as the
order id — it substitutes the Telegram charge id. -/
theorem stars_payload_parsing_counterexample :
    pyStartsWith "vpn_key:42" "renew:" = false ∧
    stars_payload_order_id "vpn_key:42" "CH99" = "CH99" ∧
    stars_payload_order_id "vpn_key:42" "CH99" ≠ "vpn_key:42" := by
  refine ⟨rfl, rfl, ?_⟩
  decide

/-- **C9 (amended)** Stars payload parsing: a `renew:<order_id>`
payload yields the segment after the colon; a payload starting with
`vpn_key:` yields the Telegram payment charge id; every other payload
is used whole as the order id. -/
theorem stars_payload_parsing (payload charge_id : String) :
    (pyStartsWith payload "renew:" = false → pyStartsWith payload "vpn_key:" = false →
        stars_payload_order_id payload charge_id = payload) ∧
    (pyStartsWith payload "renew:" = false → pyStartsWith payload "vpn_key:" = true →
        stars_payload_order_id payload charge_id = charge_id) ∧
    (∀ rest, pyStartsWith payload "renew:" = true → pySplit ':' payload = ["renew", rest] →
        stars_payload_order_id payload charge_id = rest) := by
  refine ⟨?_, ?_, ?_⟩
  · intro h1 h2
    simp [stars_payload_order_id, h1, h2]
  · intro h1 h2
    simp [stars_payload_order_id, h1, h2]
  · intro rest h1 h2
    simp [stars_payload_order_id, h1, h2]

/-- Witness for C9: a renewal payload yields the id after the colon, a
bare payload is passed through whole. -/
theorem stars_payload_parsing_witness :
    stars_payload_order_id "renew:00A1" "CH99" = "00A1" ∧
    stars_payload_order_id "00A1" "CH99" = "00A1" := by
  obtain ⟨_, _, h3⟩ := stars_payload_parsing "renew:00A1" "CH99"
  obtain ⟨g1, _, _⟩ := stars_payload_parsing "00A1" "CH99"
  exact ⟨h3 "00A1" (by decide) (by decide), g1 (by decide) (by decide)⟩

/-- **C10** Callback price overrides catalog price for synthesized
external orders: the parsed price is never negative (split segments
cannot contain the dash a minus sign would need), and the created
order stores the callback price exactly when it is positive, falling
back to the catalog tariff's `price_cents` when the segment was the
placeholder or zero. -/
theorem callback_price_override (fault : Bool) (db : DB) (sp : String) (uid : Option Nat)
    (parsed : ParsedCallback) (secret : String) (u : Nat) (t : Tariff)
    (hparse : parse_crypto_callback sp = some parsed)
    (hsec : get_setting db "crypto_secret_key" = some secret) (hne : secret ≠ "")
    (hsig : verify_crypto_signature parsed.data_part parsed.signature secret = true)
    (habsent : firstRow db parsed.order_id = none)
    (hext : pyStartsWith parsed.order_id "00" = false)
    (huid : uid = some u)
    (hres : resolve_callback_tariff db parsed = some t) (htid : t.id ≠ 0) :
    0 ≤ parsed.price ∧
    ∃ q, firstRow (process_crypto_payment fault db sp uid).2 parsed.order_id = some q ∧
      q.amount_cents = (if 0 < parsed.price then parsed.price else t.price_cents) ∧
      q.amount_stars = t.price_stars ∧ q.period_days = some t.duration_days ∧
      q.status = OrderStatus.paid := by
  subst huid
  have hb : (secret == "") = false := beq_eq_false_iff_ne.mpr hne
  have hfo : find_order_by_order_id db parsed.order_id = none := by
    rw [find_order_eq, habsent]
    rfl
  have htid2 : (t.id == 0) = false := beq_eq_false_iff_ne.mpr htid
  have hamt : (if (parsed.price != 0 && decide (parsed.price > 0)) = true
      then parsed.price else t.price_cents) =
      (if 0 < parsed.price then parsed.price else t.price_cents) := by
    by_cases hp : 0 < parsed.price
    · rw [if_pos hp, if_pos]
      simp only [bne_iff_ne, ne_eq, Bool.and_eq_true, decide_eq_true_eq]
      exact ⟨ne_of_gt hp, hp⟩
    · rw [if_neg hp, if_neg]
      simp only [Bool.and_eq_true, decide_eq_true_eq, not_and]
      intro _
      exact hp
  have hred : process_crypto_payment fault db sp (some u) =
      process_payment_order fault (create_paid_order_external db parsed.order_id u t.id
        "crypto" (if (parsed.price != 0 && decide (parsed.price > 0)) = true
          then parsed.price else t.price_cents)
        t.price_stars t.duration_days).2 parsed.order_id := by
    simp [process_crypto_payment, hparse, hsec, hb, hsig, hfo, hext, hres, htid2]
    intro hc
    simp [create_paid_order_external] at hc
  have hfind2 : firstRow (create_paid_order_external db parsed.order_id u t.id "crypto"
      (if (parsed.price != 0 && decide (parsed.price > 0)) = true
        then parsed.price else t.price_cents)
      t.price_stars t.duration_days).2 parsed.order_id =
      some { id := db.next_payment_id, user_id := u, tariff_id := some t.id,
             order_id := parsed.order_id, payment_type := some "crypto", vpn_key_id := none,
             amount_cents := (if (parsed.price != 0 && decide (parsed.price > 0)) = true
               then parsed.price else t.price_cents),
             amount_stars := t.price_stars, period_days := some t.duration_days,
             status := OrderStatus.pending, paid_at := none } := by
    unfold firstRow create_paid_order_external
    simp only
    rw [List.find?_append]
    rw [show List.find? (fun p => p.order_id == parsed.order_id) db.payments = none
      from habsent]
    simp
  obtain ⟨_, q, hq, hqs, hqc, hqstars, hqper⟩ :=
    process_pending_core fault _ parsed.order_id _ hfind2 rfl
  rw [hred]
  refine ⟨parse_crypto_callback_price_nonneg sp parsed hparse, q, hq, ?_, hqstars, hqper, hqs⟩
  rw [hqc]
  exact hamt

set_option maxRecDepth 1000000 in
set_option maxHeartbeats 1000000 in
/-- Witness for C10: a signed callback for the unknown external order
`"EXT9"` with tariff number 5 and price 777 stores 777 cents, and one
for `"EXT7"` with price 0 stores the catalog price of 1100 cents. -/
theorem callback_price_override_witness :
    (∃ q, firstRow (process_crypto_payment false dbW
        "bill1-EXT9-5821-5-_-777-H37gU4OXMItAup4" (some 7)).2 "EXT9" = some q ∧
      q.amount_cents = 777 ∧ q.status = OrderStatus.paid) ∧
    (∃ q, firstRow (process_crypto_payment false dbW
        "bill1-EXT7-5821-5-_-0-KHHuih419B79FQ7" (some 7)).2 "EXT7" = some q ∧
      q.amount_cents = 1100 ∧ q.status = OrderStatus.paid) := by
  constructor
  · obtain ⟨_, q, hq, hc, _, _, hs⟩ := callback_price_override false dbW
      "bill1-EXT9-5821-5-_-777-H37gU4OXMItAup4" (some 7)
      { head_seg := "bill1", order_id := "EXT9", item_id := "5821", tariff := "5",
        promo := "_", price := 777, signature := "H37gU4OXMItAup4",
        data_part := "bill1-EXT9-5821-5-_-777" }
      "s3cr3t" 7 tariffQ (by decide) rfl (by decide) (by decide) (by decide) (by decide)
      rfl (by decide) (by decide)
    exact ⟨q, hq, hc.trans (by decide), hs⟩
  · obtain ⟨_, q, hq, hc, _, _, hs⟩ := callback_price_override false dbW
      "bill1-EXT7-5821-5-_-0-KHHuih419B79FQ7" (some 7)
      { head_seg := "bill1", order_id := "EXT7", item_id := "5821", tariff := "5",
        promo := "_", price := 0, signature := "KHHuih419B79FQ7",
        data_part := "bill1-EXT7-5821-5-_-0" }
      "s3cr3t" 7 tariffQ (by decide) rfl (by decide) (by decide) (by decide) (by decide)
      rfl (by decide) (by decide)
    exact ⟨q, hq, hc.trans (by decide), hs⟩
